import Mathlib

/-!
# Verification of the classroom/lab state model and live-update scheduler

Shallow embedding of the core of the `gdg-on-campus-ntnu-bot` repository:

* `src/models/classroom.ts` — the `Classroom` aggregate (students, groups,
  lab sessions, typed state-change events);
* `src/utils/autoUpdateMessage.ts` — the auto-updating message scheduler
  (interval refreshes, notification-triggered refreshes behind a
  rate-limiting gate, time-budget teardown).

Pure functions are translated directly; the stateful TypeScript class
methods become state-passing functions `Classroom → args → Classroom × result
× List ClassroomEvent`, where the event list records what the method `emit`s.
String equality tests (`Collection.get/set` keys, `Set.has` on lab ids) are
rendered as decidable propositional equality, which coincides with
JavaScript `===` on strings. The scheduler's timers are modelled by an
explicit state record holding, for each timer or subscription, whether it is
currently registered, and by handler functions that mirror the callbacks
installed by `createAutoUpdateMessage`.
-/

/-- A student record (`interface Student` in `classroom.ts`).
`group` is the optional group assignment; `completedLabs` is the set of lab
session ids the student has completed, modelled as a list with `Set.add`
semantics (`setAdd`: adding a present element is a no-op). -/
structure Student where
  id : String
  name : String
  group : Option Int := none
  completedLabs : List String := []
deriving DecidableEq

/-- A lab session (`interface LabSession` in `classroom.ts`).
`startTime` is the millisecond timestamp `Date.now()` at creation. -/
structure LabSession where
  id : String
  name : String
  startTime : Nat
  threadId : String
deriving DecidableEq

/-- The typed events emitted by `Classroom` (`ClassroomEventTypes`),
with the payloads passed to `emit`. -/
inductive ClassroomEvent where
  | studentAdded (s : Student)
  | studentGroupChanged (s : Student) (group : Int)
  | labStarted (l : LabSession)
  | labCompleted (s : Student) (l : LabSession)
deriving DecidableEq

/-- Lookup in the student mapping (`Collection.get`): first entry whose key
matches. -/
def mapGet (l : List (String × Student)) (k : String) : Option Student :=
  (l.find? (fun p => p.1 = k)).map (fun p => p.2)

/-- Insert-or-overwrite in the student mapping (`Collection.set`): replaces
the entry at an existing key in place, otherwise appends. -/
def mapSet (l : List (String × Student)) (k : String) (v : Student) :
    List (String × Student) :=
  match l with
  | [] => [(k, v)]
  | p :: rest => if p.1 = k then (k, v) :: rest else p :: mapSet rest k v

/-- `Set.add` on the membership model of a JS `Set<string>`:
appends the element only when it is not already present. -/
def setAdd (s : List String) (x : String) : List String :=
  if x ∈ s then s else s ++ [x]

/-- The `Classroom` aggregate (`class Classroom` in `classroom.ts`). -/
structure Classroom where
  id : String
  name : String
  students : List (String × Student) := []
  groups : Int
  activeLabSession : Option LabSession := none
deriving DecidableEq

/-- The `Classroom` constructor: `this.groups = Math.max(1, groups)`,
empty student mapping, no active lab. -/
def mkClassroom (id name : String) (groups : Int) : Classroom :=
  { id := id, name := name, students := [], groups := max 1 groups,
    activeLabSession := none }

namespace Classroom

/-- `addStudent`: `students.set(student.id, student)` then emits
`student-added`. -/
def addStudent (c : Classroom) (s : Student) : Classroom × List ClassroomEvent :=
  ({ c with students := mapSet c.students s.id s }, [ClassroomEvent.studentAdded s])

/-- `getStudent`: pure lookup in the student mapping. -/
def getStudent (c : Classroom) (i : String) : Option Student :=
  mapGet c.students i

/-- `assignStudentToGroup`: fails (false, no mutation, no event) when the
student is unknown or the group is outside `[1, groups]`; otherwise sets the
student's group and emits `student-group-changed` with the updated student
and the group number. -/
def assignStudentToGroup (c : Classroom) (studentId : String) (group : Int) :
    Classroom × Bool × List ClassroomEvent :=
  match mapGet c.students studentId with
  | none => (c, false, [])
  | some st =>
    if group < 1 ∨ group > c.groups then (c, false, [])
    else
      let st' := { st with group := some group }
      ({ c with students := mapSet c.students studentId st' }, true,
       [ClassroomEvent.studentGroupChanged st' group])

/-- `startLab`: throws `"A lab session is already active"` when
`activeLabSession` is non-null (the TypeScript method throws before any
assignment, so the classroom is untouched on that path); otherwise creates a
session with id `Date.now().toString()`, sets it active, emits `lab-started`
and returns it. `now` is the `Date.now()` timestamp. -/
def startLab (c : Classroom) (labName : String) (now : Nat) :
    Except String (Classroom × LabSession × List ClassroomEvent) :=
  match c.activeLabSession with
  | some _ => Except.error "A lab session is already active"
  | none =>
    let session : LabSession :=
      { id := toString now, name := labName, startTime := now, threadId := c.id }
    Except.ok ({ c with activeLabSession := some session }, session,
      [ClassroomEvent.labStarted session])

/-- `completeLab`: fails (false, no mutation, no event) when there is no
active lab or the student is unknown; otherwise records
`isNewCompletion = !student.completedLabs.has(active.id)`, adds the id to
the student's set, emits `lab-completed` only when `isNewCompletion`, and
returns true. -/
def completeLab (c : Classroom) (studentId : String) :
    Classroom × Bool × List ClassroomEvent :=
  match c.activeLabSession with
  | none => (c, false, [])
  | some lab =>
    match mapGet c.students studentId with
    | none => (c, false, [])
    | some st =>
      let isNewCompletion : Prop := lab.id ∉ st.completedLabs
      let st' := { st with completedLabs := setAdd st.completedLabs lab.id }
      ({ c with students := mapSet c.students studentId st' }, true,
       if isNewCompletion then [ClassroomEvent.labCompleted st' lab] else [])

/-- `hasCompletedActiveLab`: false when no active lab or unknown student,
otherwise the membership test of the active session's id. -/
def hasCompletedActiveLab (c : Classroom) (studentId : String) : Bool :=
  match c.activeLabSession with
  | none => false
  | some lab =>
    match mapGet c.students studentId with
    | none => false
    | some st => decide (lab.id ∈ st.completedLabs)

end Classroom

/-- One invocation of a public mutating operation of the aggregate, with its
arguments, for reasoning about reachable classroom states. -/
inductive ClassroomOp where
  | addStudent (s : Student)
  | assignGroup (studentId : String) (group : Int)
  | startLab (labName : String) (now : Nat)
  | completeLab (studentId : String)
deriving DecidableEq

/-- Applies one public operation to a classroom, keeping the state component
of the result; a rejected `startLab` (thrown error) leaves the state as it
was, exactly as the TypeScript method does. -/
def applyOp (c : Classroom) : ClassroomOp → Classroom
  | ClassroomOp.addStudent s => (c.addStudent s).1
  | ClassroomOp.assignGroup sid g => (c.assignStudentToGroup sid g).1
  | ClassroomOp.startLab n now =>
    match c.startLab n now with
    | Except.ok r => r.1
    | Except.error _ => c
  | ClassroomOp.completeLab sid => (c.completeLab sid).1

/-- Runs a sequence of public operations from a starting state. -/
def runOps (c : Classroom) (ops : List ClassroomOp) : Classroom :=
  ops.foldl applyOp c

/-- The group assignment of one student is in range, when set. -/
def groupOk (g : Option Int) (bound : Int) : Prop :=
  match g with
  | none => True
  | some k => 1 ≤ k ∧ k ≤ bound

/-- The classroom invariant of the spec: `groups ≥ 1` and every student's
group, if set, lies in `[1, groups]`. (The spec's third clause — at most one
active lab session — is structural here: `activeLabSession` is an `Option`.) -/
def ClassroomInv (c : Classroom) : Prop :=
  1 ≤ c.groups ∧ ∀ p ∈ c.students, groupOk p.2.group c.groups

/-- The discipline the command layer actually follows when calling
`addStudent`: it only ever passes freshly constructed records with no group
assignment (see `handleJoinGroup` in `interactions.ts`). -/
def addsNoGroup : ClassroomOp → Prop
  | ClassroomOp.addStudent s => s.group = none
  | _ => True

/-- The discipline the command layer actually follows when calling
`addStudent`: freshly constructed records carry an empty `completedLabs`
set (see `handleJoinGroup` in `interactions.ts`). -/
def addsEmptyLabs : ClassroomOp → Prop
  | ClassroomOp.addStudent s => s.completedLabs = []
  | _ => True

/-- Auxiliary invariant: while no lab session is active, no student has any
completed lab recorded. It holds along every trace whose `addStudent` calls
pass empty `completedLabs` sets, because `completeLab` fails without an
active session and `activeLabSession`, once set, is never cleared. -/
def NoLabNoCompletion (c : Classroom) : Prop :=
  c.activeLabSession = none → ∀ p ∈ c.students, p.2.completedLabs = []

/-! ## The live-update scheduler (`autoUpdateMessage.ts`)

The scheduler's mutable session state is the closure state of
`createAutoUpdateMessage` (`updateCount`, `lastUpdateTime`, `pendingUpdate`,
`endTime`) together with the registration status of each timer and
subscription it creates:

* `intervalActive` — the recurring `setInterval` timer;
* `subStudentAdded`/`subGroupChanged`/`subLabCompleted` — the three
  classroom event listeners;
* `safetyNetActive` — the one-shot `setTimeout(…, timeLimit)` safety net;
* `deferredFireAt` — the fire time of the deferred refresh scheduled by
  `queueUpdate`, when one is pending. Its `setTimeout` id is never stored
  by the source, so no cleanup code can cancel it.

Timestamps are milliseconds (`Date.now()`). Each callback is modelled
atomically: the `async` suspension points inside `performUpdate` are not
represented, which matches the single-threaded event-loop reading of the
spec. -/

/-- `DEFAULT_UPDATE_INTERVAL`: 30 seconds. -/
def DEFAULT_UPDATE_INTERVAL : Nat := 30 * 1000

/-- `DEFAULT_UPDATE_LIMIT`: 15 minutes. -/
def DEFAULT_UPDATE_LIMIT : Nat := 15 * 60 * 1000

/-- `MIN_UPDATE_INTERVAL`: 10 seconds minimum between immediate updates. -/
def MIN_UPDATE_INTERVAL : Nat := 10 * 1000

/-- The state of one auto-update session. -/
structure AutoUpdateState where
  endTime : Nat
  updateCount : Nat
  lastUpdateTime : Nat
  pendingUpdate : Bool
  intervalActive : Bool
  subStudentAdded : Bool
  subGroupChanged : Bool
  subLabCompleted : Bool
  safetyNetActive : Bool
  deferredFireAt : Option Nat
deriving DecidableEq

/-- Session state right after `createAutoUpdateMessage` posted the initial
reply and registered its interval, listeners (when a classroom was passed)
and safety-net timer. `startTime` is `Date.now()` at that moment. -/
def initAutoUpdate (startTime timeLimit : Nat) (hasClassroom : Bool) :
    AutoUpdateState :=
  { endTime := startTime + timeLimit
    updateCount := 0
    lastUpdateTime := startTime
    pendingUpdate := false
    intervalActive := true
    subStudentAdded := hasClassroom
    subGroupChanged := hasClassroom
    subLabCompleted := hasClassroom
    safetyNetActive := true
    deferredFireAt := none }

/-- The cleanup the source runs on each exit path of `performUpdate`:
`clearInterval(intervalId)` followed by `removeEventListeners()`. It does
not touch the deferred `setTimeout` created by `queueUpdate` (whose id was
never stored) and does not cancel the safety-net timer. -/
def teardown (s : AutoUpdateState) : AutoUpdateState :=
  { s with intervalActive := false, subStudentAdded := false,
           subGroupChanged := false, subLabCompleted := false }

/-- `performUpdate(reason)` at time `now`: increments `updateCount`; when
`now ≥ endTime` it posts the final message and cleans up; when the render or
the post fails (`err`) the catch block cleans up; otherwise it posts the
refreshed message and resets `lastUpdateTime`/`pendingUpdate`. -/
def performUpdate (s : AutoUpdateState) (now : Nat) (err : Bool) :
    AutoUpdateState :=
  let s1 := { s with updateCount := s.updateCount + 1 }
  if s1.endTime ≤ now then teardown s1
  else if err then teardown s1
  else { s1 with lastUpdateTime := now, pendingUpdate := false }

/-- `queueUpdate(reason)` at time `now`: when less than
`MIN_UPDATE_INTERVAL` has elapsed since the last completed refresh it either
schedules a single deferred refresh after `MIN_UPDATE_INTERVAL − elapsed`
(setting `pendingUpdate`) or, when one is already pending, drops the
trigger; otherwise it refreshes immediately via `performUpdate`. -/
def queueUpdate (s : AutoUpdateState) (now : Nat) (err : Bool) :
    AutoUpdateState :=
  let timeSinceLastUpdate := now - s.lastUpdateTime
  if timeSinceLastUpdate < MIN_UPDATE_INTERVAL then
    if s.pendingUpdate = false then
      { s with pendingUpdate := true,
               deferredFireAt :=
                 some (now + (MIN_UPDATE_INTERVAL - timeSinceLastUpdate)) }
    else s
  else performUpdate s now err

/-- The asynchronous callbacks that can run for one session. -/
inductive AutoUpdateTrigger where
  | intervalTick
  | studentAddedNotif
  | groupChangedNotif
  | labCompletedNotif
  | deferredFire
  | safetyNetFire
deriving DecidableEq

/-- Dispatch of one callback, exactly as `createAutoUpdateMessage` wires it:
the interval timer calls `performUpdate("scheduled")` directly (never the
gate); each classroom notification calls `queueUpdate` while its listener is
registered; the deferred timer fires `performUpdate` at its scheduled time;
the safety net runs `clearInterval` + `removeEventListeners` once. -/
def handleTrigger (s : AutoUpdateState) (now : Nat) (err : Bool) :
    AutoUpdateTrigger → AutoUpdateState
  | AutoUpdateTrigger.intervalTick =>
    if s.intervalActive then performUpdate s now err else s
  | AutoUpdateTrigger.studentAddedNotif =>
    if s.subStudentAdded then queueUpdate s now err else s
  | AutoUpdateTrigger.groupChangedNotif =>
    if s.subGroupChanged then queueUpdate s now err else s
  | AutoUpdateTrigger.labCompletedNotif =>
    if s.subLabCompleted then queueUpdate s now err else s
  | AutoUpdateTrigger.deferredFire =>
    match s.deferredFireAt with
    | some t => performUpdate { s with deferredFireAt := none } t err
    | none => s
  | AutoUpdateTrigger.safetyNetFire =>
    if s.safetyNetActive then teardown { s with safetyNetActive := false }
    else s

theorem mapGet_mapSet_self (l : List (String × Student)) (k : String) (v : Student) :
    mapGet (mapSet l k v) k = some v := by
  induction l with
  | nil => simp [mapGet, mapSet]
  | cons p rest ih =>
    by_cases h : p.1 = k
    · simp [mapGet, mapSet, h]
    · simpa [mapGet, mapSet, h] using ih

theorem mapGet_mapSet_ne (l : List (String × Student)) {k k' : String} (v : Student)
    (h : k' ≠ k) : mapGet (mapSet l k v) k' = mapGet l k' := by
  induction l with
  | nil => simp [mapGet, mapSet, Ne.symm h]
  | cons p rest ih =>
    by_cases hp : p.1 = k
    · subst hp
      simp [mapGet, mapSet, Ne.symm h]
    · by_cases hp' : p.1 = k'
      · simp [mapGet, mapSet, hp, hp', h]
      · simpa [mapGet, mapSet, hp, hp'] using ih

theorem mem_mapSet (l : List (String × Student)) (k : String) (v : Student)
    (p : String × Student) (hp : p ∈ mapSet l k v) : p = (k, v) ∨ p ∈ l := by
  induction l with
  | nil => simpa [mapSet] using hp
  | cons q rest ih =>
    by_cases h : q.1 = k
    · simp only [mapSet, if_pos h] at hp
      rcases List.mem_cons.mp hp with hp | hp
      · exact Or.inl hp
      · exact Or.inr (List.mem_cons_of_mem _ hp)
    · simp only [mapSet, if_neg h] at hp
      rcases List.mem_cons.mp hp with hp | hp
      · exact Or.inr (hp ▸ List.mem_cons_self _ _)
      · rcases ih hp with h' | h'
        · exact Or.inl h'
        · exact Or.inr (List.mem_cons_of_mem _ h')

theorem mapGet_mem (l : List (String × Student)) (k : String) (v : Student)
    (h : mapGet l k = some v) : (k, v) ∈ l := by
  induction l with
  | nil => simp [mapGet] at h
  | cons p rest ih =>
    rcases p with ⟨a, b⟩
    by_cases hp : a = k
    · subst hp
      simp [mapGet, List.find?_cons] at h
      subst h
      exact List.mem_cons_self _ _
    · simp only [mapGet, List.find?_cons] at h
      rw [show (decide (((a, b) : String × Student).1 = k)) = false by
        simpa using hp] at h
      exact List.mem_cons_of_mem _ (ih h)

theorem mem_setAdd_self (s : List String) (x : String) : x ∈ setAdd s x := by
  by_cases h : x ∈ s <;> simp [setAdd, h]

/-- **C7**: for every integer input, the constructed classroom has
`groups = max 1 input`, an empty student mapping and no active lab session;
in particular every input `≤ 0` produces `groups = 1`. -/
theorem mkClassroom_spec :
    (∀ (id n : String) (g : Int),
        (mkClassroom id n g).groups = max 1 g ∧
        (mkClassroom id n g).students = [] ∧
        (mkClassroom id n g).activeLabSession = none) ∧
    (∀ (id n : String) (g : Int), g ≤ 0 → (mkClassroom id n g).groups = 1) := by
  constructor
  · intro id n g
    exact ⟨rfl, rfl, rfl⟩
  · intro id n g hg
    simp only [mkClassroom]
    omega

/-- Witness for `mkClassroom_spec` at the concrete input `-3`. -/
theorem mkClassroom_spec_witness :
    ((-3 : Int) ≤ 0) ∧ (mkClassroom "thread" "class" (-3)).groups = 1 :=
  ⟨by decide, mkClassroom_spec.2 "thread" "class" (-3) (by decide)⟩

/-- **C9**: adding a student and looking it up by the same id round-trips:
the stored record (which overwrites any prior record at that id) has the
same `id` and `name` — in fact it is the added record itself. -/
theorem addStudent_getStudent_roundtrip :
    ∀ (c : Classroom) (s : Student),
      ∃ r : Student,
        Classroom.getStudent (Classroom.addStudent c s).1 s.id = some r ∧
        r.id = s.id ∧ r.name = s.name := by
  intro c s
  refine ⟨s, ?_, rfl, rfl⟩
  simp [Classroom.getStudent, Classroom.addStudent, mapGet_mapSet_self]

/-- **C10**: re-adding a student wholesale replaces the stored record: if a
student has completed the active lab, re-adding a fresh record with the same
id (empty `completedLabs`, no group) makes `hasCompletedActiveLab` false and
discards the previous group assignment. -/
theorem addStudent_erases_history :
    ∀ (c : Classroom) (sid n : String),
      Classroom.hasCompletedActiveLab c sid = true →
      Classroom.hasCompletedActiveLab
        (Classroom.addStudent c
          { id := sid, name := n, group := none, completedLabs := [] }).1
        sid = false ∧
      Classroom.getStudent
        (Classroom.addStudent c
          { id := sid, name := n, group := none, completedLabs := [] }).1
        sid =
        some { id := sid, name := n, group := none, completedLabs := [] } := by
  intro c sid n _h
  constructor
  · rcases hact : c.activeLabSession with _ | lab
    · simp [Classroom.hasCompletedActiveLab, Classroom.addStudent, hact]
    · simp [Classroom.hasCompletedActiveLab, Classroom.addStudent, hact,
        mapGet_mapSet_self]
  · simp [Classroom.getStudent, Classroom.addStudent, mapGet_mapSet_self]

/-- **C4**: `startLab` throws the "already active" error exactly when
`activeLabSession` is non-null (the failed call changes nothing, since the
method throws before any assignment — modelled by the `error` branch
carrying no new state); otherwise it installs a session with the
time-derived id, the given name and the classroom id as `threadId`, emits
`lab-started` with that session, and returns it. -/
theorem startLab_spec :
    (∀ (c : Classroom) (n : String) (now : Nat),
        c.activeLabSession ≠ none ↔
          Classroom.startLab c n now =
            Except.error "A lab session is already active") ∧
    (∀ (c : Classroom) (n : String) (now : Nat),
        c.activeLabSession = none →
        Classroom.startLab c n now =
          Except.ok
            ({ c with
                activeLabSession := some ⟨toString now, n, now, c.id⟩ },
             (⟨toString now, n, now, c.id⟩ : LabSession),
             [ClassroomEvent.labStarted ⟨toString now, n, now, c.id⟩])) := by
  constructor
  · intro c n now
    rcases hact : c.activeLabSession with _ | lab
    · simp [Classroom.startLab, hact]
    · simp [Classroom.startLab, hact]
  · intro c n now hact
    simp [Classroom.startLab, hact]

/-- Witness for `startLab_spec` on a freshly created classroom. -/
theorem startLab_spec_witness :
    (mkClassroom "T" "C" 2).activeLabSession = none ∧
    Classroom.startLab (mkClassroom "T" "C" 2) "Lab 1" 5 =
      Except.ok
        ({ (mkClassroom "T" "C" 2) with
            activeLabSession :=
              some ⟨toString 5, "Lab 1", 5, (mkClassroom "T" "C" 2).id⟩ },
         (⟨toString 5, "Lab 1", 5, (mkClassroom "T" "C" 2).id⟩ : LabSession),
         [ClassroomEvent.labStarted
            ⟨toString 5, "Lab 1", 5, (mkClassroom "T" "C" 2).id⟩]) :=
  ⟨rfl, startLab_spec.2 (mkClassroom "T" "C" 2) "Lab 1" 5 rfl⟩

/-- **C6**: `assignStudentToGroup` returns false with no mutation and no
event exactly when the student is unknown or the group is out of range;
otherwise it stores the student with the new group, emits
`student-group-changed` carrying the updated student and the group number,
and returns true — and a repeated call with the same group emits the
notification again. -/
theorem assignStudentToGroup_spec :
    (∀ (c : Classroom) (sid : String) (g : Int),
        Classroom.assignStudentToGroup c sid g = (c, false, []) ↔
          (Classroom.getStudent c sid = none ∨ g < 1 ∨ g > c.groups)) ∧
    (∀ (c : Classroom) (sid : String) (g : Int) (st : Student),
        Classroom.getStudent c sid = some st → 1 ≤ g → g ≤ c.groups →
        Classroom.assignStudentToGroup c sid g =
          ({ c with students := mapSet c.students sid { st with group := some g } },
           true,
           [ClassroomEvent.studentGroupChanged { st with group := some g } g])) ∧
    (∀ (c : Classroom) (sid : String) (g : Int) (st : Student),
        Classroom.getStudent c sid = some st → 1 ≤ g → g ≤ c.groups →
        (Classroom.assignStudentToGroup
            (Classroom.assignStudentToGroup c sid g).1 sid g).2.1 = true ∧
        (Classroom.assignStudentToGroup
            (Classroom.assignStudentToGroup c sid g).1 sid g).2.2 =
          [ClassroomEvent.studentGroupChanged { st with group := some g } g]) := by
  have hsucc : ∀ (c : Classroom) (sid : String) (g : Int) (st : Student),
      Classroom.getStudent c sid = some st → 1 ≤ g → g ≤ c.groups →
      Classroom.assignStudentToGroup c sid g =
        ({ c with students := mapSet c.students sid { st with group := some g } },
         true,
         [ClassroomEvent.studentGroupChanged { st with group := some g } g]) := by
    intro c sid g st hst h1 h2
    have hm : mapGet c.students sid = some st := hst
    simp only [Classroom.assignStudentToGroup, hm]
    rw [if_neg (by omega : ¬(g < 1 ∨ g > c.groups))]
  refine ⟨?_, hsucc, ?_⟩
  · intro c sid g
    constructor
    · intro h
      by_contra hcon
      push_neg at hcon
      obtain ⟨h1, h2, h3⟩ := hcon
      rcases hst : Classroom.getStudent c sid with _ | st
      · exact h1 hst
      · rw [hsucc c sid g st hst (by omega) (by omega)] at h
        exact absurd (congrArg (fun r => r.2.1) h) (by simp)
    · intro h
      rcases h with h | h | h
      · have hm : mapGet c.students sid = none := h
        simp only [Classroom.assignStudentToGroup, hm]
      · rcases hst : Classroom.getStudent c sid with _ | st
        · have hm : mapGet c.students sid = none := hst
          simp only [Classroom.assignStudentToGroup, hm]
        · have hm : mapGet c.students sid = some st := hst
          simp only [Classroom.assignStudentToGroup, hm]
          rw [if_pos (Or.inl h)]
      · rcases hst : Classroom.getStudent c sid with _ | st
        · have hm : mapGet c.students sid = none := hst
          simp only [Classroom.assignStudentToGroup, hm]
        · have hm : mapGet c.students sid = some st := hst
          simp only [Classroom.assignStudentToGroup, hm]
          rw [if_pos (Or.inr h)]
  · intro c sid g st hst h1 h2
    rw [hsucc c sid g st hst h1 h2]
    have hst' : Classroom.getStudent
        ({ c with students := mapSet c.students sid { st with group := some g } } :
          Classroom) sid = some { st with group := some g } := by
      simp [Classroom.getStudent, mapGet_mapSet_self]
    rw [hsucc _ sid g { st with group := some g } hst' h1 h2]
    exact ⟨rfl, rfl⟩

/-- Witness for `assignStudentToGroup_spec` on a two-group classroom with
one registered student. -/
theorem assignStudentToGroup_spec_witness :
    (Classroom.assignStudentToGroup
        (Classroom.assignStudentToGroup
          { id := "T", name := "C",
            students := [("s", { id := "s", name := "S" })],
            groups := 2, activeLabSession := none } "s" 2).1 "s" 2).2.1 = true ∧
    (Classroom.assignStudentToGroup
        (Classroom.assignStudentToGroup
          { id := "T", name := "C",
            students := [("s", { id := "s", name := "S" })],
            groups := 2, activeLabSession := none } "s" 2).1 "s" 2).2.2 =
      [ClassroomEvent.studentGroupChanged
        { id := "s", name := "S", group := some 2 } 2] :=
  assignStudentToGroup_spec.2.2
    { id := "T", name := "C",
      students := [("s", { id := "s", name := "S" })],
      groups := 2, activeLabSession := none }
    "s" 2 { id := "s", name := "S" } rfl (by decide) (by decide)

/-- **C1**: `completeLab` returns false and mutates nothing when there is no
active lab or the student is unknown; on success it adds the active
session's id to the student's completed set and returns true, emitting
`lab-completed` exactly when the id was not already a member; hence two
successive calls for the same student and the same active lab both return
true but emit the notification exactly once. -/
theorem completeLab_spec :
    (∀ (c : Classroom) (sid : String),
        c.activeLabSession = none →
        Classroom.completeLab c sid = (c, false, [])) ∧
    (∀ (c : Classroom) (sid : String),
        Classroom.getStudent c sid = none →
        Classroom.completeLab c sid = (c, false, [])) ∧
    (∀ (c : Classroom) (sid : String) (lab : LabSession) (st : Student),
        c.activeLabSession = some lab →
        Classroom.getStudent c sid = some st →
        (Classroom.completeLab c sid).2.1 = true ∧
        Classroom.getStudent (Classroom.completeLab c sid).1 sid =
          some { st with completedLabs := setAdd st.completedLabs lab.id } ∧
        lab.id ∈ setAdd st.completedLabs lab.id ∧
        (Classroom.completeLab c sid).2.2 =
          (if lab.id ∉ st.completedLabs then
            [ClassroomEvent.labCompleted
              { st with completedLabs := setAdd st.completedLabs lab.id } lab]
           else [])) ∧
    (∀ (c : Classroom) (sid : String) (lab : LabSession) (st : Student),
        c.activeLabSession = some lab →
        Classroom.getStudent c sid = some st →
        lab.id ∉ st.completedLabs →
        (Classroom.completeLab c sid).2.1 = true ∧
        (Classroom.completeLab (Classroom.completeLab c sid).1 sid).2.1 = true ∧
        ((Classroom.completeLab c sid).2.2 ++
          (Classroom.completeLab (Classroom.completeLab c sid).1 sid).2.2).length
          = 1) := by
  have hred : ∀ (c : Classroom) (sid : String) (lab : LabSession) (st : Student),
      c.activeLabSession = some lab →
      mapGet c.students sid = some st →
      Classroom.completeLab c sid =
        ({ c with students := mapSet c.students sid { st with completedLabs := setAdd st.completedLabs lab.id } },
         true,
         if lab.id ∉ st.completedLabs then
           [ClassroomEvent.labCompleted
             { st with completedLabs := setAdd st.completedLabs lab.id } lab]
         else []) := by
    intro c sid lab st hact hm
    simp only [Classroom.completeLab, hact, hm]
  refine ⟨?_, ?_, ?_, ?_⟩
  · intro c sid hact
    simp only [Classroom.completeLab, hact]
  · intro c sid hst
    have hm : mapGet c.students sid = none := hst
    rcases hact : c.activeLabSession with _ | lab
    · simp only [Classroom.completeLab, hact]
    · simp only [Classroom.completeLab, hact, hm]
  · intro c sid lab st hact hst
    have hm : mapGet c.students sid = some st := hst
    rw [hred c sid lab st hact hm]
    refine ⟨rfl, ?_, mem_setAdd_self _ _, rfl⟩
    simp [Classroom.getStudent, mapGet_mapSet_self]
  · intro c sid lab st hact hst hnew
    have hm : mapGet c.students sid = some st := hst
    have h1 := hred c sid lab st hact hm
    set st' : Student :=
      { st with completedLabs := setAdd st.completedLabs lab.id } with hst'
    have hact1 : (Classroom.completeLab c sid).1.activeLabSession = some lab := by
      rw [h1]
      exact hact
    have hm1 : mapGet (Classroom.completeLab c sid).1.students sid = some st' := by
      rw [h1]
      exact mapGet_mapSet_self _ _ _
    have h2 := hred (Classroom.completeLab c sid).1 sid lab st' hact1 hm1
    refine ⟨by rw [h1], by rw [h2], ?_⟩
    rw [h1] at h2
    rw [h1, h2]
    have hmem : lab.id ∈ st'.completedLabs := mem_setAdd_self _ _
    simp [hnew, hmem]

/-- Witness for `completeLab_spec`: a classroom with an active lab and one
registered student who has not yet completed it. -/
theorem completeLab_spec_witness :
    ((Classroom.completeLab
        { id := "T", name := "C",
          students := [("s", { id := "s", name := "S" })],
          groups := 1,
          activeLabSession := some ⟨"100", "L", 100, "T"⟩ } "s").2.1 = true ∧
     (Classroom.completeLab
        (Classroom.completeLab
          { id := "T", name := "C",
            students := [("s", { id := "s", name := "S" })],
            groups := 1,
            activeLabSession := some ⟨"100", "L", 100, "T"⟩ } "s").1 "s").2.1
       = true ∧
     ((Classroom.completeLab
        { id := "T", name := "C",
          students := [("s", { id := "s", name := "S" })],
          groups := 1,
          activeLabSession := some ⟨"100", "L", 100, "T"⟩ } "s").2.2 ++
      (Classroom.completeLab
        (Classroom.completeLab
          { id := "T", name := "C",
            students := [("s", { id := "s", name := "S" })],
            groups := 1,
            activeLabSession := some ⟨"100", "L", 100, "T"⟩ } "s").1 "s").2.2).length
       = 1) :=
  completeLab_spec.2.2.2
    { id := "T", name := "C",
      students := [("s", { id := "s", name := "S" })],
      groups := 1,
      activeLabSession := some ⟨"100", "L", 100, "T"⟩ }
    "s" ⟨"100", "L", 100, "T"⟩ { id := "s", name := "S" }
    rfl rfl (by decide)

theorem classroomInv_mk (id n : String) (g : Int) :
    ClassroomInv (mkClassroom id n g) := by
  refine ⟨le_max_left 1 g, ?_⟩
  intro p hp
  simp [mkClassroom] at hp

theorem classroomInv_step (c : Classroom) (op : ClassroomOp)
    (hc : ClassroomInv c) (hop : addsNoGroup op) :
    ClassroomInv (applyOp c op) := by
  obtain ⟨hg, hs⟩ := hc
  cases op with
  | addStudent s =>
    have hgrp : s.group = none := hop
    refine ⟨hg, ?_⟩
    intro p hp
    simp only [applyOp, Classroom.addStudent] at hp
    rcases mem_mapSet _ _ _ _ hp with rfl | hp
    · simp [groupOk, hgrp]
    · exact hs p hp
  | assignGroup sid g =>
    rcases hm : mapGet c.students sid with _ | st
    · simp only [applyOp, Classroom.assignStudentToGroup, hm]
      exact ⟨hg, hs⟩
    · by_cases hcond : g < 1 ∨ g > c.groups
      · simp only [applyOp, Classroom.assignStudentToGroup, hm]
        rw [if_pos hcond]
        exact ⟨hg, hs⟩
      · simp only [applyOp, Classroom.assignStudentToGroup, hm]
        rw [if_neg hcond]
        refine ⟨hg, ?_⟩
        intro p hp
        rcases mem_mapSet _ _ _ _ hp with rfl | hp
        · simp only [groupOk]
          omega
        · exact hs p hp
  | startLab n now =>
    rcases hact : c.activeLabSession with _ | l
    · simp only [applyOp, Classroom.startLab, hact]
      exact ⟨hg, hs⟩
    · simp only [applyOp, Classroom.startLab, hact]
      exact ⟨hg, hs⟩
  | completeLab sid =>
    rcases hact : c.activeLabSession with _ | lab
    · simp only [applyOp, Classroom.completeLab, hact]
      exact ⟨hg, hs⟩
    · rcases hm : mapGet c.students sid with _ | st
      · simp only [applyOp, Classroom.completeLab, hact, hm]
        exact ⟨hg, hs⟩
      · simp only [applyOp, Classroom.completeLab, hact, hm]
        refine ⟨hg, ?_⟩
        intro p hp
        rcases mem_mapSet _ _ _ _ hp with rfl | hp
        · exact hs (sid, st) (mapGet_mem _ _ _ hm)
        · exact hs p hp

theorem classroomInv_runOps (ops : List ClassroomOp) :
    ∀ c : Classroom, ClassroomInv c → (∀ op ∈ ops, addsNoGroup op) →
      ClassroomInv (runOps c ops) := by
  induction ops with
  | nil => exact fun c hc _ => hc
  | cons op rest ih =>
    intro c hc hops
    exact ih (applyOp c op) (classroomInv_step c op hc (hops op (by simp)))
      (fun o ho => hops o (by simp [ho]))

/-- **C5** (amended): along every operation sequence whose `addStudent`
calls pass records with no group assignment — which is the only way the
command layer ever calls it — every reachable state satisfies
`groups ≥ 1` and has every assigned group inside `[1, groups]`; `at most
one active lab session` is structural (`activeLabSession : Option _`).
The unamended claim fails because `addStudent` accepts an arbitrary
record (see `classroom_invariant_counterexample`). -/
theorem classroom_invariant_reachable :
    ∀ (id n : String) (g : Int) (ops : List ClassroomOp),
      (∀ op ∈ ops, addsNoGroup op) →
      ClassroomInv (runOps (mkClassroom id n g) ops) := by
  intro id n g ops hops
  exact classroomInv_runOps ops (mkClassroom id n g) (classroomInv_mk id n g) hops

/-- Witness for `classroom_invariant_reachable` on a four-operation trace. -/
theorem classroom_invariant_reachable_witness :
    ClassroomInv (runOps (mkClassroom "T" "C" 2)
      [ClassroomOp.addStudent { id := "s", name := "S" },
       ClassroomOp.assignGroup "s" 2,
       ClassroomOp.startLab "L" 100,
       ClassroomOp.completeLab "s"]) :=
  classroom_invariant_reachable "T" "C" 2 _
    (by intro op hop; fin_cases hop <;> simp [addsNoGroup])

/-- **C5** counterexample: the claim quantifies over *any* sequence of the
public operations, but `addStudent` accepts an arbitrary student record, so
a single `addStudent` carrying `group = 5` into a one-group classroom
reaches a state violating the `1 ≤ group ≤ groupCount` invariant. -/
theorem classroom_invariant_counterexample :
    ¬ ClassroomInv (runOps (mkClassroom "T" "C" 1)
        [ClassroomOp.addStudent
          { id := "x", name := "X", group := some 5, completedLabs := [] }]) := by
  intro h
  have h5 := h.2 ("x",
      { id := "x", name := "X", group := some 5, completedLabs := [] })
    (by simp [runOps, applyOp, Classroom.addStudent, mkClassroom, mapSet])
  simp only [groupOk] at h5
  have hb : (runOps (mkClassroom "T" "C" 1)
      [ClassroomOp.addStudent
        { id := "x", name := "X", group := some 5, completedLabs := [] }]).groups
      = 1 := by
    simp [runOps, applyOp, Classroom.addStudent, mkClassroom]
  rw [hb] at h5
  omega

theorem hCAL_true_iff (c : Classroom) (sid : String) :
    Classroom.hasCompletedActiveLab c sid = true ↔
      ∃ (lab : LabSession) (st : Student),
        c.activeLabSession = some lab ∧ mapGet c.students sid = some st ∧
        lab.id ∈ st.completedLabs := by
  rcases hact : c.activeLabSession with _ | lab
  · simp [Classroom.hasCompletedActiveLab, hact]
  · rcases hm : mapGet c.students sid with _ | st
    · simp [Classroom.hasCompletedActiveLab, hact, hm]
    · simp [Classroom.hasCompletedActiveLab, hact, hm]

theorem noLabNoCompletion_mk (id n : String) (g : Int) :
    NoLabNoCompletion (mkClassroom id n g) := by
  intro _ p hp
  simp [mkClassroom] at hp

theorem noLabNoCompletion_step (c : Classroom) (op : ClassroomOp)
    (hc : NoLabNoCompletion c) (hop : addsEmptyLabs op) :
    NoLabNoCompletion (applyOp c op) := by
  cases op with
  | addStudent s =>
    intro hact p hp
    have hact0 : c.activeLabSession = none := hact
    simp only [applyOp, Classroom.addStudent] at hp
    rcases mem_mapSet _ _ _ _ hp with rfl | hp
    · exact hop
    · exact hc hact0 p hp
  | assignGroup sid g =>
    rcases hm : mapGet c.students sid with _ | st
    · simp only [applyOp, Classroom.assignStudentToGroup, hm]
      exact hc
    · by_cases hcond : g < 1 ∨ g > c.groups
      · simp only [applyOp, Classroom.assignStudentToGroup, hm]
        rw [if_pos hcond]
        exact hc
      · simp only [applyOp, Classroom.assignStudentToGroup, hm]
        rw [if_neg hcond]
        intro hact p hp
        have hact0 : c.activeLabSession = none := hact
        rcases mem_mapSet _ _ _ _ hp with rfl | hp
        · exact hc hact0 (sid, st) (mapGet_mem _ _ _ hm)
        · exact hc hact0 p hp
  | startLab n now =>
    rcases hact : c.activeLabSession with _ | l
    · simp only [applyOp, Classroom.startLab, hact]
      intro hact' _p _hp
      exact absurd hact' (by simp)
    · simp only [applyOp, Classroom.startLab, hact]
      intro hact' p hp
      exact hc hact' p hp
  | completeLab sid =>
    rcases hact : c.activeLabSession with _ | lab
    · simp only [applyOp, Classroom.completeLab, hact]
      exact hc
    · rcases hm : mapGet c.students sid with _ | st
      · simp only [applyOp, Classroom.completeLab, hact, hm]
        exact hc
      · simp only [applyOp, Classroom.completeLab, hact, hm]
        intro hact' _p _hp
        simp at hact'

theorem noLabNoCompletion_runOps (ops : List ClassroomOp) :
    ∀ c : Classroom, NoLabNoCompletion c → (∀ op ∈ ops, addsEmptyLabs op) →
      NoLabNoCompletion (runOps c ops) := by
  induction ops with
  | nil => exact fun c hc _ => hc
  | cons op rest ih =>
    intro c hc hops
    exact ih (applyOp c op) (noLabNoCompletion_step c op hc (hops op (by simp)))
      (fun o ho => hops o (by simp [ho]))

theorem hCAL_flip (c : Classroom) (op : ClassroomOp) (sid : String)
    (hinv : NoLabNoCompletion c) (hop : addsEmptyLabs op)
    (hfalse : Classroom.hasCompletedActiveLab c sid = false)
    (htrue : Classroom.hasCompletedActiveLab (applyOp c op) sid = true) :
    op = ClassroomOp.completeLab sid ∧ (Classroom.completeLab c sid).2.1 = true := by
  cases op with
  | addStudent s =>
    exfalso
    obtain ⟨lab, st, hact, hm, hmem⟩ := (hCAL_true_iff _ _).mp htrue
    simp only [applyOp, Classroom.addStudent] at hact hm
    by_cases hid : s.id = sid
    · have hms : mapGet (mapSet c.students s.id s) sid = some s := by
        rw [hid]; exact mapGet_mapSet_self _ _ _
      rw [hms] at hm
      have hsts : st = s := by injection hm.symm
      have hemp : s.completedLabs = [] := hop
      rw [hsts, hemp] at hmem
      simp at hmem
    · rw [mapGet_mapSet_ne _ _ (fun h => hid h.symm)] at hm
      have : Classroom.hasCompletedActiveLab c sid = true :=
        (hCAL_true_iff c sid).mpr ⟨lab, st, hact, hm, hmem⟩
      rw [hfalse] at this
      cases this
  | assignGroup sid' g =>
    exfalso
    rcases hm0 : mapGet c.students sid' with _ | st0
    · have heq : applyOp c (ClassroomOp.assignGroup sid' g) = c := by
        simp only [applyOp, Classroom.assignStudentToGroup, hm0]
      rw [heq, hfalse] at htrue
      cases htrue
    · by_cases hcond : g < 1 ∨ g > c.groups
      · have heq : applyOp c (ClassroomOp.assignGroup sid' g) = c := by
          simp only [applyOp, Classroom.assignStudentToGroup, hm0]
          rw [if_pos hcond]
        rw [heq, hfalse] at htrue
        cases htrue
      · have heq : applyOp c (ClassroomOp.assignGroup sid' g) =
            { c with students := mapSet c.students sid' { st0 with group := some g } } := by
          simp only [applyOp, Classroom.assignStudentToGroup, hm0]
          rw [if_neg hcond]
        rw [heq] at htrue
        obtain ⟨lab, st, hact, hm, hmem⟩ := (hCAL_true_iff _ _).mp htrue
        simp only at hact hm
        by_cases hid : sid' = sid
        · subst hid
          rw [mapGet_mapSet_self] at hm
          have hsteq : st = { st0 with group := some g } := by injection hm.symm
          rw [hsteq] at hmem
          have : Classroom.hasCompletedActiveLab c sid' = true :=
            (hCAL_true_iff c sid').mpr ⟨lab, st0, hact, hm0, hmem⟩
          rw [hfalse] at this
          cases this
        · rw [mapGet_mapSet_ne _ _ (fun h => hid h.symm)] at hm
          have : Classroom.hasCompletedActiveLab c sid = true :=
            (hCAL_true_iff c sid).mpr ⟨lab, st, hact, hm, hmem⟩
          rw [hfalse] at this
          cases this
  | startLab n now =>
    exfalso
    rcases hact : c.activeLabSession with _ | l
    · have heq : applyOp c (ClassroomOp.startLab n now) =
          { c with activeLabSession := some ⟨toString now, n, now, c.id⟩ } := by
        simp only [applyOp, Classroom.startLab, hact]
      rw [heq] at htrue
      obtain ⟨lab, st, _hact', hm, hmem⟩ := (hCAL_true_iff _ _).mp htrue
      simp only at hm
      have hst : (sid, st) ∈ c.students := mapGet_mem _ _ _ hm
      have hemp : st.completedLabs = [] := hinv hact (sid, st) hst
      rw [hemp] at hmem
      simp at hmem
    · have heq : applyOp c (ClassroomOp.startLab n now) = c := by
        simp only [applyOp, Classroom.startLab, hact]
      rw [heq, hfalse] at htrue
      cases htrue
  | completeLab sid' =>
    by_cases hid : sid' = sid
    · subst hid
      refine ⟨rfl, ?_⟩
      rcases hact : c.activeLabSession with _ | lab
      · have heq : applyOp c (ClassroomOp.completeLab sid') = c := by
          simp only [applyOp, Classroom.completeLab, hact]
        rw [heq, hfalse] at htrue
        cases htrue
      · rcases hm : mapGet c.students sid' with _ | st
        · have heq : applyOp c (ClassroomOp.completeLab sid') = c := by
            simp only [applyOp, Classroom.completeLab, hact, hm]
          rw [heq, hfalse] at htrue
          cases htrue
        · simp only [Classroom.completeLab, hact, hm]
    · exfalso
      rcases hact : c.activeLabSession with _ | lab
      · have heq : applyOp c (ClassroomOp.completeLab sid') = c := by
          simp only [applyOp, Classroom.completeLab, hact]
        rw [heq, hfalse] at htrue
        cases htrue
      · rcases hm : mapGet c.students sid' with _ | st
        · have heq : applyOp c (ClassroomOp.completeLab sid') = c := by
            simp only [applyOp, Classroom.completeLab, hact, hm]
          rw [heq, hfalse] at htrue
          cases htrue
        · have heq : applyOp c (ClassroomOp.completeLab sid') =
              { c with students := mapSet c.students sid' { st with completedLabs := setAdd st.completedLabs lab.id } } := by
            simp only [applyOp, Classroom.completeLab, hact, hm]
          rw [heq] at htrue
          obtain ⟨lab', st2, hact', hm2, hmem⟩ := (hCAL_true_iff _ _).mp htrue
          simp only at hact' hm2
          rw [mapGet_mapSet_ne _ _ (fun h => hid h.symm)] at hm2
          have : Classroom.hasCompletedActiveLab c sid = true :=
            (hCAL_true_iff c sid).mpr ⟨lab', st2, hact', hm2, hmem⟩
          rw [hfalse] at this
          cases this

/-- **C8** (amended): `hasCompletedActiveLab` is false without an active lab
or for an unknown student and otherwise is exactly the membership test; it
is false on a fresh classroom; it performs no mutation (it is a pure
function of the state here); and — along traces whose `addStudent` calls
pass empty `completedLabs` sets, which is how the command layer always
calls it — it flips from false to true for a student only through a
successful `completeLab` call for that student (targeting the active
session). The unamended claim fails because `addStudent` accepts a record
with a preloaded `completedLabs` set
(see `hasCompletedActiveLab_counterexample`). -/
theorem hasCompletedActiveLab_spec :
    (∀ (c : Classroom) (sid : String), c.activeLabSession = none →
        Classroom.hasCompletedActiveLab c sid = false) ∧
    (∀ (c : Classroom) (sid : String), Classroom.getStudent c sid = none →
        Classroom.hasCompletedActiveLab c sid = false) ∧
    (∀ (c : Classroom) (sid : String) (lab : LabSession) (st : Student),
        c.activeLabSession = some lab → Classroom.getStudent c sid = some st →
        (Classroom.hasCompletedActiveLab c sid = true ↔
          lab.id ∈ st.completedLabs)) ∧
    (∀ (id n : String) (g : Int) (sid : String),
        Classroom.hasCompletedActiveLab (mkClassroom id n g) sid = false) ∧
    (∀ (id n : String) (g : Int) (ops : List ClassroomOp),
        (∀ op ∈ ops, addsEmptyLabs op) →
        NoLabNoCompletion (runOps (mkClassroom id n g) ops)) ∧
    (∀ (c : Classroom) (op : ClassroomOp) (sid : String),
        NoLabNoCompletion c → addsEmptyLabs op →
        Classroom.hasCompletedActiveLab c sid = false →
        Classroom.hasCompletedActiveLab (applyOp c op) sid = true →
        op = ClassroomOp.completeLab sid ∧
        (Classroom.completeLab c sid).2.1 = true) := by
  refine ⟨?_, ?_, ?_, ?_, ?_, hCAL_flip⟩
  · intro c sid hact
    simp [Classroom.hasCompletedActiveLab, hact]
  · intro c sid hst
    have hm : mapGet c.students sid = none := hst
    rcases hact : c.activeLabSession with _ | lab
    · simp [Classroom.hasCompletedActiveLab, hact]
    · simp [Classroom.hasCompletedActiveLab, hact, hm]
  · intro c sid lab st hact hst
    have hm : mapGet c.students sid = some st := hst
    simp [Classroom.hasCompletedActiveLab, hact, hm]
  · intro id n g sid
    simp [Classroom.hasCompletedActiveLab, mkClassroom]
  · intro id n g ops hops
    exact noLabNoCompletion_runOps ops (mkClassroom id n g)
      (noLabNoCompletion_mk id n g) hops

/-- Witness for `hasCompletedActiveLab_spec`: a successful `completeLab` is
indeed the operation that flips the flag on a concrete classroom. -/
theorem hasCompletedActiveLab_spec_witness :
    ClassroomOp.completeLab "s" = ClassroomOp.completeLab "s" ∧
    (Classroom.completeLab
      { id := "T", name := "C",
        students := [("s", { id := "s", name := "S" })],
        groups := 1,
        activeLabSession := some ⟨"100", "L", 100, "T"⟩ } "s").2.1 = true :=
  hasCompletedActiveLab_spec.2.2.2.2.2
    { id := "T", name := "C",
      students := [("s", { id := "s", name := "S" })],
      groups := 1,
      activeLabSession := some ⟨"100", "L", 100, "T"⟩ }
    (ClassroomOp.completeLab "s") "s"
    (fun h => nomatch h) trivial (by decide) (by decide)

/-- **C8** counterexample: a trace with no `completeLab` call at all — a
`startLab` followed by an `addStudent` whose record already carries the
active session's id in `completedLabs` — makes `hasCompletedActiveLab`
true, so the flag does not become true "only after a successful completeLab
call". -/
theorem hasCompletedActiveLab_counterexample :
    Classroom.hasCompletedActiveLab
      (runOps (mkClassroom "T" "C" 1)
        [ClassroomOp.startLab "L" 100,
         ClassroomOp.addStudent
           { id := "s", name := "S", group := none,
             completedLabs := [toString 100] }]) "s" = true ∧
    (∀ op ∈ [ClassroomOp.startLab "L" 100,
         ClassroomOp.addStudent
           { id := "s", name := "S", group := none,
             completedLabs := [toString 100] }],
       ∀ sid : String, op ≠ ClassroomOp.completeLab sid) := by
  constructor
  · decide
  · intro op hop sid
    fin_cases hop <;> simp

/-- **C2**: the notification-triggered refresh gate. When a notification
arrives less than `MIN_UPDATE_INTERVAL` after the last completed refresh
with no refresh pending, exactly one deferred refresh is scheduled, firing
`minSpacing − elapsed` later (i.e. at `lastUpdateTime + minSpacing`), and
the pending flag is set; a further notification while the flag is set (the
flag stays set until the deferred refresh fires at
`lastUpdateTime + minSpacing`, so "while set" means strictly inside that
window) changes nothing; a notification with `elapsed ≥ minSpacing`
refreshes immediately; interval ticks call `performUpdate` directly,
bypassing the gate entirely; and two notifications 2 seconds apart inside
the window produce exactly one deferred refresh, firing `≥ 10 s` after the
last completed refresh. -/
theorem queueUpdate_gate_spec :
    (∀ (s : AutoUpdateState) (now : Nat) (e : Bool),
        s.lastUpdateTime ≤ now →
        now - s.lastUpdateTime < MIN_UPDATE_INTERVAL →
        s.pendingUpdate = false →
        queueUpdate s now e =
          { s with pendingUpdate := true,
                   deferredFireAt :=
                     some (s.lastUpdateTime + MIN_UPDATE_INTERVAL) }) ∧
    (∀ (s : AutoUpdateState) (now : Nat) (e : Bool),
        now - s.lastUpdateTime < MIN_UPDATE_INTERVAL →
        s.pendingUpdate = true →
        queueUpdate s now e = s) ∧
    (∀ (s : AutoUpdateState) (now : Nat) (e : Bool),
        MIN_UPDATE_INTERVAL ≤ now - s.lastUpdateTime →
        queueUpdate s now e = performUpdate s now e) ∧
    (∀ (s : AutoUpdateState) (now : Nat) (e : Bool),
        s.intervalActive = true →
        handleTrigger s now e AutoUpdateTrigger.intervalTick =
          performUpdate s now e) ∧
    (∀ (s : AutoUpdateState) (t1 : Nat) (e : Bool),
        s.subLabCompleted = true →
        s.pendingUpdate = false →
        s.lastUpdateTime ≤ t1 →
        t1 + 2000 < s.lastUpdateTime + MIN_UPDATE_INTERVAL →
        handleTrigger s t1 e AutoUpdateTrigger.labCompletedNotif =
          { s with pendingUpdate := true,
                   deferredFireAt :=
                     some (s.lastUpdateTime + MIN_UPDATE_INTERVAL) } ∧
        handleTrigger
          (handleTrigger s t1 e AutoUpdateTrigger.labCompletedNotif)
          (t1 + 2000) e AutoUpdateTrigger.labCompletedNotif =
          handleTrigger s t1 e AutoUpdateTrigger.labCompletedNotif ∧
        s.lastUpdateTime + 10000 ≤ s.lastUpdateTime + MIN_UPDATE_INTERVAL) := by
  have hM : MIN_UPDATE_INTERVAL = 10000 := by norm_num [MIN_UPDATE_INTERVAL]
  have hsched : ∀ (s : AutoUpdateState) (now : Nat) (e : Bool),
      s.lastUpdateTime ≤ now →
      now - s.lastUpdateTime < MIN_UPDATE_INTERVAL →
      s.pendingUpdate = false →
      queueUpdate s now e =
        { s with pendingUpdate := true,
                 deferredFireAt :=
                   some (s.lastUpdateTime + MIN_UPDATE_INTERVAL) } := by
    intro s now e hle hlt hp
    unfold queueUpdate
    rw [if_pos hlt, if_pos hp]
    have harith : now + (MIN_UPDATE_INTERVAL - (now - s.lastUpdateTime)) =
        s.lastUpdateTime + MIN_UPDATE_INTERVAL := by omega
    rw [harith]
  have hdrop : ∀ (s : AutoUpdateState) (now : Nat) (e : Bool),
      now - s.lastUpdateTime < MIN_UPDATE_INTERVAL →
      s.pendingUpdate = true →
      queueUpdate s now e = s := by
    intro s now e hlt hp
    unfold queueUpdate
    rw [if_pos hlt, if_neg (by simp [hp])]
  refine ⟨hsched, hdrop, ?_, ?_, ?_⟩
  · intro s now e hge
    unfold queueUpdate
    rw [if_neg (by omega)]
  · intro s now e hact
    simp [handleTrigger, hact]
  · intro s t1 e hsub hp hle hwin
    have h1 : handleTrigger s t1 e AutoUpdateTrigger.labCompletedNotif =
        { s with pendingUpdate := true,
                 deferredFireAt :=
                   some (s.lastUpdateTime + MIN_UPDATE_INTERVAL) } := by
      simp only [handleTrigger]
      rw [if_pos hsub]
      exact hsched s t1 e hle (by omega) hp
    refine ⟨h1, ?_, by omega⟩
    rw [h1]
    simp only [handleTrigger]
    rw [if_pos hsub]
    exact hdrop _ _ _ (by simp; omega) rfl

/-- Witness for `queueUpdate_gate_spec`: a fresh session whose last refresh
was at time 0 receives two lab-completed notifications at 2000 ms and
4000 ms. -/
theorem queueUpdate_gate_spec_witness :
    handleTrigger (initAutoUpdate 0 900000 true) 2000 false
        AutoUpdateTrigger.labCompletedNotif =
      { initAutoUpdate 0 900000 true with
          pendingUpdate := true, deferredFireAt := some (0 + MIN_UPDATE_INTERVAL) } ∧
    handleTrigger
        (handleTrigger (initAutoUpdate 0 900000 true) 2000 false
          AutoUpdateTrigger.labCompletedNotif)
        (2000 + 2000) false AutoUpdateTrigger.labCompletedNotif =
      handleTrigger (initAutoUpdate 0 900000 true) 2000 false
        AutoUpdateTrigger.labCompletedNotif ∧
    (0 : Nat) + 10000 ≤ 0 + MIN_UPDATE_INTERVAL :=
  (queueUpdate_gate_spec.2.2.2.2 (initAutoUpdate 0 900000 true) 2000 false
    rfl rfl (by norm_num [initAutoUpdate])
    (by norm_num [initAutoUpdate, MIN_UPDATE_INTERVAL]))

/-- **C3** counterexample: a session created with a 8-second time budget
receives a lab-completed notification at 5000 ms, which schedules a
deferred refresh for 10000 ms; the safety-net timer then tears the session
down at 8000 ms, yet the deferred-refresh timer is still registered (its
`setTimeout` id was never stored, so no cleanup can release it), and it
subsequently fires, running `performUpdate` after teardown. -/
theorem autoUpdate_teardown_counterexample :
    (handleTrigger (initAutoUpdate 0 8000 true) 5000 false
        AutoUpdateTrigger.labCompletedNotif).deferredFireAt = some 10000 ∧
    (handleTrigger
        (handleTrigger (initAutoUpdate 0 8000 true) 5000 false
          AutoUpdateTrigger.labCompletedNotif)
        8000 false AutoUpdateTrigger.safetyNetFire).intervalActive = false ∧
    (handleTrigger
        (handleTrigger (initAutoUpdate 0 8000 true) 5000 false
          AutoUpdateTrigger.labCompletedNotif)
        8000 false AutoUpdateTrigger.safetyNetFire).subLabCompleted = false ∧
    (handleTrigger
        (handleTrigger (initAutoUpdate 0 8000 true) 5000 false
          AutoUpdateTrigger.labCompletedNotif)
        8000 false AutoUpdateTrigger.safetyNetFire).deferredFireAt =
      some 10000 ∧
    (handleTrigger
        (handleTrigger
          (handleTrigger (initAutoUpdate 0 8000 true) 5000 false
            AutoUpdateTrigger.labCompletedNotif)
          8000 false AutoUpdateTrigger.safetyNetFire)
        10000 false AutoUpdateTrigger.deferredFire).updateCount =
      (handleTrigger
        (handleTrigger (initAutoUpdate 0 8000 true) 5000 false
          AutoUpdateTrigger.labCompletedNotif)
        8000 false AutoUpdateTrigger.safetyNetFire).updateCount + 1 := by
  refine ⟨?_, ?_, ?_, ?_, ?_⟩ <;> decide

/-- **C3** (amended): on each of the three exit paths — (a) a refresh
observing `now ≥ endTime`, (b) the safety-net timer, (c) a render/post
error — the recurring interval timer is cancelled and all three classroom
subscriptions are removed; however, a pending deferred-refresh timer is
*not* released (the cleanup leaves `deferredFireAt` untouched, because the
source never stores that `setTimeout` id), and exit paths (a) and (c) leave
the safety-net timer registered as well. -/
theorem autoUpdate_teardown_amended :
    (∀ (s : AutoUpdateState) (now : Nat) (e : Bool),
        s.endTime ≤ now →
        (performUpdate s now e).intervalActive = false ∧
        (performUpdate s now e).subStudentAdded = false ∧
        (performUpdate s now e).subGroupChanged = false ∧
        (performUpdate s now e).subLabCompleted = false ∧
        (performUpdate s now e).deferredFireAt = s.deferredFireAt ∧
        (performUpdate s now e).safetyNetActive = s.safetyNetActive) ∧
    (∀ (s : AutoUpdateState) (now : Nat),
        (performUpdate s now true).intervalActive = false ∧
        (performUpdate s now true).subStudentAdded = false ∧
        (performUpdate s now true).subGroupChanged = false ∧
        (performUpdate s now true).subLabCompleted = false ∧
        (performUpdate s now true).deferredFireAt = s.deferredFireAt ∧
        (performUpdate s now true).safetyNetActive = s.safetyNetActive) ∧
    (∀ (s : AutoUpdateState) (now : Nat) (e : Bool),
        s.safetyNetActive = true →
        (handleTrigger s now e AutoUpdateTrigger.safetyNetFire).intervalActive
          = false ∧
        (handleTrigger s now e AutoUpdateTrigger.safetyNetFire).subStudentAdded
          = false ∧
        (handleTrigger s now e AutoUpdateTrigger.safetyNetFire).subGroupChanged
          = false ∧
        (handleTrigger s now e AutoUpdateTrigger.safetyNetFire).subLabCompleted
          = false ∧
        (handleTrigger s now e AutoUpdateTrigger.safetyNetFire).deferredFireAt
          = s.deferredFireAt) := by
  refine ⟨?_, ?_, ?_⟩
  · intro s now e hend
    unfold performUpdate
    rw [if_pos (by simpa using hend)]
    exact ⟨rfl, rfl, rfl, rfl, rfl, rfl⟩
  · intro s now
    unfold performUpdate
    by_cases hend : s.endTime ≤ now
    · rw [if_pos (by simpa using hend)]
      exact ⟨rfl, rfl, rfl, rfl, rfl, rfl⟩
    · rw [if_neg (by simpa using hend), if_pos rfl]
      exact ⟨rfl, rfl, rfl, rfl, rfl, rfl⟩
  · intro s now e hnet
    simp only [handleTrigger, hnet, if_pos]
    exact ⟨rfl, rfl, rfl, rfl, rfl⟩

/-- Witness for `autoUpdate_teardown_amended`: the deadline exit path of a
fresh session with a zero time budget. -/
theorem autoUpdate_teardown_amended_witness :
    (performUpdate (initAutoUpdate 0 0 true) 0 false).intervalActive = false ∧
    (performUpdate (initAutoUpdate 0 0 true) 0 false).subStudentAdded = false ∧
    (performUpdate (initAutoUpdate 0 0 true) 0 false).subGroupChanged = false ∧
    (performUpdate (initAutoUpdate 0 0 true) 0 false).subLabCompleted = false ∧
    (performUpdate (initAutoUpdate 0 0 true) 0 false).deferredFireAt =
      (initAutoUpdate 0 0 true).deferredFireAt ∧
    (performUpdate (initAutoUpdate 0 0 true) 0 false).safetyNetActive =
      (initAutoUpdate 0 0 true).safetyNetActive :=
  autoUpdate_teardown_amended.1 (initAutoUpdate 0 0 true) 0 false (by decide)

/-- Witness for `addStudent_erases_history`: re-adding a student who had
completed the active lab and held a group assignment. -/
theorem addStudent_erases_history_witness :
    Classroom.hasCompletedActiveLab
      (Classroom.addStudent
        { id := "T", name := "C",
          students := [("s",
            { id := "s", name := "S", group := some 1,
              completedLabs := ["100"] })],
          groups := 1,
          activeLabSession := some ⟨"100", "L", 100, "T"⟩ }
        { id := "s", name := "S", group := none, completedLabs := [] }).1
      "s" = false ∧
    Classroom.getStudent
      (Classroom.addStudent
        { id := "T", name := "C",
          students := [("s",
            { id := "s", name := "S", group := some 1,
              completedLabs := ["100"] })],
          groups := 1,
          activeLabSession := some ⟨"100", "L", 100, "T"⟩ }
        { id := "s", name := "S", group := none, completedLabs := [] }).1
      "s" =
      some { id := "s", name := "S", group := none, completedLabs := [] } :=
  addStudent_erases_history
    { id := "T", name := "C",
      students := [("s",
        { id := "s", name := "S", group := some 1,
          completedLabs := ["100"] })],
      groups := 1,
      activeLabSession := some ⟨"100", "L", 100, "T"⟩ }
    "s" "S" (by decide)
